import Mathlib

/-!
Verification of the flipbook-maker viewer core against its design
specification.  The definitions below are a shallow embedding of the
TypeScript source: the page cache (the `pageImages` JavaScript `Map` in
`FlipbookViewer.tsx`), the preload scheduler (`preloadPages` in
`pdfUtils.ts`), the navigation state machine (`goToPage` and its flip
timer), the gesture tracker (`handleMouseMove` / `handleMouseUp`), the
upload relay handler (`POST /upload` in `backend/index.js`), and the
upload-component file validator (`handleFile` in `PDFUpload.tsx`).

The viewer is single-threaded and event-driven, so stateful handlers are
embedded as pure state-transition functions on an explicit record of the
React state variables; the `setTimeout` scheduled by `goToPage` is
modelled by a FIFO list of pending flip-completion timers, consumed by
`timerElapsed`.  JavaScript numbers used by the gesture tracker are
modelled as rationals; page numbers are naturals.
-/

/-- Flip animation direction, as in the source union of the string
literals left and right (the `flipDirection` React state also admits
`null`, modelled with `Option`). -/
inductive FlipDir
  | left
  | right
deriving DecidableEq, Repr

/-- The page cache: the denotation of the JavaScript
`Map<number, string>` held in the `pageImages` state variable.  A `Map`
is observed only through `get`/`set`/`has`, so its denotation is a
function from page numbers to an optional image data URL. -/
def PageMap : Type := Nat → Option String

namespace PageMap

/-- `map.get(page)` on the JavaScript `Map`: returns the stored image or
absent. -/
def get (m : PageMap) (page : Nat) : Option String := m page

/-- `map.set(page, img)` on the JavaScript `Map`: overwrites the entry
for `page`, leaving every other key unchanged. -/
def set (m : PageMap) (page : Nat) (img : String) : PageMap :=
  fun q => if q = page then some img else m q

/-- `map.has(page)` on the JavaScript `Map`. -/
def has (m : PageMap) (page : Nat) : Bool := (m page).isSome

/-- The initial empty cache, `new Map()`. -/
def empty : PageMap := fun _ => none

end PageMap

/-- The pages for which `preloadPages` (pdfUtils.ts, lines 161-189)
queues a `renderPage` task: the loop runs `i` from
`max(1, currentPage - preloadRange)` to
`min(totalPages, currentPage + preloadRange)` and pushes a render
promise for every `i ≠ currentPage`.  The source consults no cache
here. -/
def preloadSchedule (currentPage totalPages preloadRange : Nat) : List Nat :=
  let lo := max 1 (currentPage - preloadRange)
  let hi := min totalPages (currentPage + preloadRange)
  (List.range' lo (hi + 1 - lo)).filter (fun i => i ≠ currentPage)

/-- Modelled from the spec (not from the source): the preload schedule
as §4.3 of the specification describes it, "skipping any page already
present in the cache".  Used only to compare the specified behaviour
with `preloadSchedule`, the behaviour of the source. -/
def preloadScheduleSpec (currentPage totalPages preloadRange : Nat)
    (cache : PageMap) : List Nat :=
  let lo := max 1 (currentPage - preloadRange)
  let hi := min totalPages (currentPage + preloadRange)
  (List.range' lo (hi + 1 - lo)).filter
    (fun i => i ≠ currentPage && !(PageMap.has cache i))

/-- The result map built by `preloadPages`: each scheduled page is
rendered; on success `pages.set(i, canvas)` runs, on failure the error
is caught and logged and the page is skipped.  `render` gives the
render outcome of each page (`none` = the render promise rejected). -/
def preloadPages (render : Nat → Option String)
    (currentPage totalPages preloadRange : Nat) : List (Nat × String) :=
  (preloadSchedule currentPage totalPages preloadRange).filterMap
    (fun i => (render i).map (fun canvas => (i, canvas)))

/-- The React state of `FlipbookViewer` that the navigation state
machine and gesture tracker read and write.  `flipDirection = none` is
the idle state (`null` in the source); `pendingTimers` holds the targets
of the flip-completion `setTimeout` callbacks scheduled by `goToPage`,
in scheduling order (all timeouts share the fixed 400 ms delay, so they
fire FIFO). -/
structure ViewerState where
  currentPage : Nat
  totalPages : Nat
  flipDirection : Option FlipDir
  dragProgress : ℚ
  isDragging : Bool
  dragStartX : ℚ
  dragCurrentX : ℚ
  pageImages : PageMap
  pendingTimers : List Nat

/-- The viewer is idle: no flip animation in flight and no
flip-completion timer pending. -/
def Idle (s : ViewerState) : Prop :=
  s.flipDirection = none ∧ s.pendingTimers = []

/-- A flip animation is in flight (`flipDirection` non-null in the
source). -/
def Flipping (s : ViewerState) : Prop :=
  s.flipDirection ≠ none

/-- `goToPage(pageNum, direction)` (FlipbookViewer.tsx, lines 123-135):
rejects targets outside `[1, totalPages]` and the current page,
otherwise sets the flip direction and schedules the 400 ms completion
timeout.  The synchronous body also issues `loadPage(pageNum)` (an
asynchronous render whose cache insert lands later) and plays the flip
sound; neither changes the state captured here synchronously.  Note the
source has no guard on an already-in-flight flip. -/
def goToPage (s : ViewerState) (pageNum : Nat) (direction : FlipDir) : ViewerState :=
  if pageNum < 1 ∨ s.totalPages < pageNum ∨ pageNum = s.currentPage then s
  else { s with flipDirection := some direction
                pendingTimers := s.pendingTimers ++ [pageNum] }

/-- Firing of the oldest pending flip-completion timeout: the callback
scheduled by `goToPage` runs `setCurrentPage(pageNum)`,
`setFlipDirection(null)` and `setDragProgress(0)`. -/
def timerElapsed (s : ViewerState) : ViewerState :=
  match s.pendingTimers with
  | [] => s
  | target :: rest =>
      { s with currentPage := target
               flipDirection := none
               dragProgress := 0
               pendingTimers := rest }

/-- `DRAG_THRESHOLD` (FlipbookViewer.tsx): minimum drag distance to
trigger a flip. -/
def DRAG_THRESHOLD : ℚ := 50

/-- `handleMouseMove` (FlipbookViewer.tsx, lines 144-150): while a drag
is active, records the pointer position and normalizes the drag delta to
`Math.max(-1, Math.min(1, deltaX / 200))`. -/
def handleMouseMove (s : ViewerState) (clientX : ℚ) : ViewerState :=
  if s.isDragging = false then s
  else
    { s with dragCurrentX := clientX
             dragProgress := max (-1) (min 1 ((clientX - s.dragStartX) / 200)) }

/-- `handleMouseUp` (FlipbookViewer.tsx, lines 152-171; `handleTouchEnd`
is textually identical): on release of an active drag, commits a
navigation when `|deltaX| > DRAG_THRESHOLD` (right drag to the previous
page if one exists, left drag to the next page if one exists), then
clears the drag state. -/
def handleMouseUp (s : ViewerState) : ViewerState :=
  if s.isDragging = false then s
  else
    let deltaX := s.dragCurrentX - s.dragStartX
    let s1 :=
      if DRAG_THRESHOLD < |deltaX| then
        if 0 < deltaX ∧ 1 < s.currentPage then
          goToPage s (s.currentPage - 1) FlipDir.right
        else if deltaX < 0 ∧ s.currentPage < s.totalPages then
          goToPage s (s.currentPage + 1) FlipDir.left
        else s
      else s
    { s1 with isDragging := false
              dragProgress := 0
              dragStartX := 0
              dragCurrentX := 0 }

/-- JavaScript string-or-default: `a || b` where `a` may be absent or
the empty string (both falsy). -/
def jsOrStr (o : Option String) (d : String) : String :=
  match o with
  | none => d
  | some s => if s = "" then d else s

/-- The fields of a multer in-memory upload used by the relay
(`req.file`). -/
structure MulterFile where
  originalname : String
  mimetype : String
  buffer : String

/-- What the relay reads from the incoming `POST /upload` request: the
optional multipart file and the optional `title` body field. -/
structure UploadRequest where
  file : Option MulterFile
  title : Option String

/-- The relay environment (backend/index.js, lines 35-41).  A dotenv
variable that is unset or empty is falsy in every guard that reads it,
so both are modelled as the empty string. -/
structure UploadEnv where
  githubOwner : String
  githubRepo : String
  githubToken : String
  githubBranchRaw : String
  frontendBaseUrl : String

/-- The response of the `POST /upload` handler: either a JSON success
body holding exactly the fields `pdfUrl`, `viewerUrl`, `title` and
`path`, or an error status with a JSON error body (and the optional
`details` field of the GitHub-failure branch). -/
inductive UploadResponse
  | success (pdfUrl viewerUrl title path : String)
  | failure (status : Nat) (error : String) (details : Option String)
deriving DecidableEq, Repr

/-- The sanitized file name `safeName` (backend/index.js, line 84): the
regex replace maps every character outside ASCII letters, digits, dot,
hyphen and underscore to an underscore.  `Char.isAlpha` and
`Char.isDigit` cover exactly the ASCII ranges of the regex. -/
def safeName (s : String) : String :=
  s.map (fun ch =>
    if ch.isAlpha || ch.isDigit || ch = '.' || ch = '-' || ch = '_' then ch
    else '_')

/-- The `POST /upload` handler (backend/index.js, lines 65-131).
Ambient effects are passed as arguments: `timestamp` is the sanitized
`new Date().toISOString()`, `enc` is `encodeURIComponent`, `githubOk`
and `githubErrorBody` are the outcome of the GitHub contents-API call.
The `viewerUrl` construction elides WHATWG URL normalization by
assuming `frontendBaseUrl` is already a normalized URL without a
fragment, as the deployment values in the source are. -/
def handleUpload (env : UploadEnv) (req : UploadRequest) (timestamp : String)
    (enc : String → String) (githubOk : Bool) (githubErrorBody : String) :
    UploadResponse :=
  if env.githubOwner = "" ∨ env.githubRepo = "" ∨ env.githubToken = "" then
    .failure 500 "GitHub environment variables not configured" none
  else
    let title := jsOrStr req.title
      (jsOrStr (req.file.map MulterFile.originalname) "Flipbook")
    match req.file with
    | none => .failure 400 "No file uploaded" none
    | some file =>
      if file.mimetype ≠ "application/pdf" then
        .failure 400 "Only PDF files are allowed" none
      else
        let path := "catalogue/" ++ timestamp ++ "-" ++ safeName file.originalname
        if githubOk = false then
          .failure 500 "Failed to upload to GitHub" (some githubErrorBody)
        else
          let branch := if env.githubBranchRaw = "" then "main" else env.githubBranchRaw
          let pdfUrl := "https://raw.githubusercontent.com/" ++ env.githubOwner
            ++ "/" ++ env.githubRepo ++ "/" ++ branch ++ "/" ++ path
          let viewerUrl := env.frontendBaseUrl ++ "#/view?pdf=" ++ enc pdfUrl
            ++ "&title=" ++ enc title
          .success pdfUrl viewerUrl title path

/-- The fields of a browser `File` object read by the upload
component validator. -/
structure FileInfo where
  fileType : String
  name : String
  size : Nat

/-- Outcome of `handleFile` (PDFUpload.tsx): either the `onUpload`
callback is invoked with the file, or an error message is set and
`onUpload` is not called. -/
inductive UploadOutcome
  | uploaded
  | error (msg : String)
deriving DecidableEq, Repr

/-- `handleFile` (PDFUpload.tsx, lines 13-29): rejects a file whose
MIME type is not `application/pdf` and whose lower-cased name does not
end in `.pdf`, then rejects a file larger than 100 MB, and otherwise
clears the error and calls `onUpload`. -/
def handleFile (f : FileInfo) : UploadOutcome :=
  if f.fileType ≠ "application/pdf" ∧ ¬ (f.name.toLower.endsWith ".pdf") then
    .error "Please upload a valid PDF file"
  else if 100 * 1024 * 1024 < f.size then
    .error "File size must be less than 100MB"
  else
    .uploaded

/-- Concrete viewer state with a flip to page 2 in flight (direction
left, completion timer pending), on page 1 of a 3-page document. -/
def c1State : ViewerState :=
  ⟨1, 3, some FlipDir.left, 0, false, 0, 0, PageMap.empty, [2]⟩

/-- Concrete idle viewer state on page 2 of a 3-page document. -/
def c3State : ViewerState := ⟨2, 3, none, 0, false, 0, 0, PageMap.empty, []⟩

/-- Concrete idle viewer state on page 1 of a 3-page document. -/
def c3WState : ViewerState := ⟨1, 3, none, 0, false, 0, 0, PageMap.empty, []⟩

/-- Concrete viewer state with an active drag released 80 units to the
left of its start, on page 5 of a 10-page document. -/
def c5State : ViewerState := ⟨5, 10, none, 0, true, 0, -80, PageMap.empty, []⟩

/-- Concrete viewer state with an active drag started at coordinate
0. -/
def c6State : ViewerState := ⟨1, 3, none, 0, true, 0, 0, PageMap.empty, []⟩

/-- A navigation request with a valid target distinct from the current
page passes the guard of `goToPage`: the flip direction is set and a
completion timer is appended, and nothing else changes. -/
theorem goToPage_accept (s : ViewerState) (p : Nat) (d : FlipDir)
    (h1 : 1 ≤ p) (h2 : p ≤ s.totalPages) (h3 : p ≠ s.currentPage) :
    goToPage s p d = { s with flipDirection := some d
                              pendingTimers := s.pendingTimers ++ [p] } := by
  unfold goToPage
  rw [if_neg]
  push_neg
  exact ⟨by omega, by omega, h3⟩

/-- A navigation request whose target is out of range or equal to the
current page fails the guard of `goToPage` and returns the state
unchanged. -/
theorem goToPage_reject (s : ViewerState) (p : Nat) (d : FlipDir)
    (h : p < 1 ∨ s.totalPages < p ∨ p = s.currentPage) :
    goToPage s p d = s := by
  unfold goToPage
  rw [if_pos h]

/-- Claim C2 (amended): the preload scheduler queues render operations for
exactly the pages in `[max(1, p-r), min(T, p+r)]` excluding `p` itself;
the cache is not consulted, so pages already cached are scheduled (and
re-rendered) all the same. -/
theorem c2_preload_window_exact : ∀ p T r i : Nat,
    i ∈ preloadSchedule p T r ↔
      (max 1 (p - r) ≤ i ∧ i ≤ min T (p + r) ∧ i ≠ p) := by
  intro p T r i
  simp only [preloadSchedule, List.mem_filter, List.mem_range'_1, decide_eq_true_eq]
  omega

/-- Claim C2 counterexample: with page 2 present in the cache, preloading
from page 1 of a 3-page document with radius 2 still schedules page 2,
so the schedule differs from the cache-skipping schedule the claim
describes; a cached page is re-rendered by preload. -/
theorem c2_counterexample :
    PageMap.has (PageMap.set PageMap.empty 2 "img") 2 = true ∧
    2 ∈ preloadSchedule 1 3 2 ∧
    preloadSchedule 1 3 2 ≠
      preloadScheduleSpec 1 3 2 (PageMap.set PageMap.empty 2 "img") := by
  refine ⟨rfl, by decide, by decide⟩

/-- Claim C4: a navigation request issued from `Idle` whose target equals the
current page or lies outside `[1, totalPages]` is a no-op: `goToPage`
returns the state itself, so no component (current page, flip
direction, drag progress, cache) changes. -/
theorem c4_invalid_request_noop : ∀ (s : ViewerState) (target : Nat) (d : FlipDir),
    Idle s → (target = s.currentPage ∨ target < 1 ∨ s.totalPages < target) →
    goToPage s target d = s := by
  intro s target d _ h
  exact goToPage_reject s target d (by tauto)

/-- Concrete instance of `c4_invalid_request_noop`: requesting page 1
while idle on page 1 of a 3-page document changes nothing. -/
theorem c4_witness :
    goToPage ⟨1, 3, none, 0, false, 0, 0, PageMap.empty, []⟩ 1 FlipDir.right =
      ⟨1, 3, none, 0, false, 0, 0, PageMap.empty, []⟩ :=
  c4_invalid_request_noop _ 1 FlipDir.right ⟨rfl, rfl⟩ (Or.inl rfl)

/-- Claim C7: page-cache round trip on the `pageImages` map: after
`set(page, img)`, `get(page)` returns exactly `img` (and `has` reports
the page); writes to the same key are overwrites, so after a second
`set(page, img2)` the last-written image is returned. -/
theorem c7_cache_round_trip : ∀ (m : PageMap) (page : Nat) (img img2 : String),
    PageMap.get (PageMap.set m page img) page = some img ∧
    PageMap.has (PageMap.set m page img) page = true ∧
    PageMap.get (PageMap.set (PageMap.set m page img) page img2) page = some img2 := by
  intro m page img img2
  refine ⟨?_, ?_, ?_⟩ <;> simp [PageMap.get, PageMap.set, PageMap.has]

/-- Claim C1 counterexample: from a state with a flip in flight
(`Flipping`), a navigation request to the valid page 3 is not a no-op,
contradicting the claim that requests received during a flip are
dropped. -/
theorem c1_counterexample :
    Flipping c1State ∧ goToPage c1State 3 FlipDir.left ≠ c1State := by
  constructor
  · simp [Flipping, c1State]
  · intro h
    have h2 := congrArg ViewerState.pendingTimers h
    rw [goToPage_accept c1State 3 FlipDir.left (by norm_num)
      (by norm_num [c1State]) (by norm_num [c1State])] at h2
    simp [c1State] at h2

/-- Claim C1 (amended): a navigation request received while a flip is
in flight is subject only to the same target-validity guard as when
idle: it is a no-op exactly when the target is out of `[1, totalPages]`
or equals the current page; a valid request starts a second,
overlapping flip (setting the direction and scheduling another
completion timer), so the at-most-one-flip invariant is not enforced by
the code. -/
theorem c1_flipping_request_same_guard : ∀ (s : ViewerState) (p : Nat) (d : FlipDir),
    Flipping s →
    ((p < 1 ∨ s.totalPages < p ∨ p = s.currentPage) → goToPage s p d = s) ∧
    (1 ≤ p → p ≤ s.totalPages → p ≠ s.currentPage →
      goToPage s p d = { s with flipDirection := some d
                                pendingTimers := s.pendingTimers ++ [p] } ∧
      (goToPage s p d).pendingTimers ≠ s.pendingTimers) := by
  intro s p d _
  refine ⟨fun h => goToPage_reject s p d h,
    fun h1 h2 h3 => ⟨goToPage_accept s p d h1 h2 h3, ?_⟩⟩
  rw [goToPage_accept s p d h1 h2 h3]
  intro h
  have := congrArg List.length h
  simp at this

/-- Concrete instance of `c1_flipping_request_same_guard`: while a flip
to page 2 is in flight, a request for page 0 is dropped and a request
for page 3 schedules a second flip. -/
theorem c1_witness :
    goToPage c1State 0 FlipDir.left = c1State ∧
    goToPage c1State 3 FlipDir.left =
      { c1State with flipDirection := some FlipDir.left
                     pendingTimers := c1State.pendingTimers ++ [3] } :=
  ⟨(c1_flipping_request_same_guard c1State 0 FlipDir.left
      (by simp [Flipping, c1State])).1 (Or.inl (by norm_num)),
   ((c1_flipping_request_same_guard c1State 3 FlipDir.left
      (by simp [Flipping, c1State])).2
      (by norm_num) (by norm_num [c1State]) (by norm_num [c1State])).1⟩

/-- Claim C3 (amended, restricted to targets distinct from the current
page): requesting navigation to a valid page `p ≠ current` while idle
enters `Flipping` with the current page unchanged and exactly one
completion timer pending; when that timer elapses the machine is idle
again with `current = p` and drag progress cleared to 0, and no further
timer is pending, so the transition happens exactly once. -/
theorem c3_flip_commits_target : ∀ (s : ViewerState) (p : Nat) (d : FlipDir),
    Idle s → 1 ≤ p → p ≤ s.totalPages → p ≠ s.currentPage →
    Flipping (goToPage s p d) ∧
    (goToPage s p d).currentPage = s.currentPage ∧
    (goToPage s p d).pendingTimers = [p] ∧
    Idle (timerElapsed (goToPage s p d)) ∧
    (timerElapsed (goToPage s p d)).currentPage = p ∧
    (timerElapsed (goToPage s p d)).dragProgress = 0 := by
  intro s p d hidle h1 h2 h3
  obtain ⟨hfd, hpt⟩ := hidle
  rw [goToPage_accept s p d h1 h2 h3]
  simp [Flipping, Idle, timerElapsed, hpt]

/-- Claim C3 counterexample: requesting the current page 2 (a valid
page number in `[1, totalPages]`) while idle never transitions to
`Flipping`; the request is a no-op, so the claim does not hold for
every valid page number. -/
theorem c3_counterexample :
    Idle c3State ∧ 1 ≤ 2 ∧ 2 ≤ c3State.totalPages ∧
    goToPage c3State 2 FlipDir.right = c3State ∧
    ¬ Flipping (goToPage c3State 2 FlipDir.right) := by
  refine ⟨⟨rfl, rfl⟩, by norm_num, by norm_num [c3State], ?_, ?_⟩
  · exact goToPage_reject _ _ _ (Or.inr (Or.inr rfl))
  · rw [goToPage_reject c3State 2 FlipDir.right
      (Or.inr (Or.inr (by norm_num [c3State])))]
    simp [Flipping, c3State]

/-- Concrete instance of `c3_flip_commits_target`: from idle on page 1
of a 3-page document, requesting page 2 flips and then commits
`current = 2` with drag progress 0. -/
theorem c3_witness :
    Flipping (goToPage c3WState 2 FlipDir.left) ∧
    Idle (timerElapsed (goToPage c3WState 2 FlipDir.left)) ∧
    (timerElapsed (goToPage c3WState 2 FlipDir.left)).currentPage = 2 ∧
    (timerElapsed (goToPage c3WState 2 FlipDir.left)).dragProgress = 0 :=
  ⟨(c3_flip_commits_target c3WState 2 FlipDir.left ⟨rfl, rfl⟩ (by norm_num)
      (by norm_num [c3WState]) (by norm_num [c3WState])).1,
   (c3_flip_commits_target c3WState 2 FlipDir.left ⟨rfl, rfl⟩ (by norm_num)
      (by norm_num [c3WState]) (by norm_num [c3WState])).2.2.2.1,
   (c3_flip_commits_target c3WState 2 FlipDir.left ⟨rfl, rfl⟩ (by norm_num)
      (by norm_num [c3WState]) (by norm_num [c3WState])).2.2.2.2.1,
   (c3_flip_commits_target c3WState 2 FlipDir.left ⟨rfl, rfl⟩ (by norm_num)
      (by norm_num [c3WState]) (by norm_num [c3WState])).2.2.2.2.2⟩

/-- Claim C6: on every pointer move of an active drag, the drag
progress equals `clamp((clientX - dragStartX) / 200, -1, 1)`, and is
therefore always within `[-1, 1]`. -/
theorem c6_drag_progress_clamped : ∀ (s : ViewerState) (clientX : ℚ),
    s.isDragging = true →
    (handleMouseMove s clientX).dragProgress =
      max (-1) (min 1 ((clientX - s.dragStartX) / 200)) ∧
    -1 ≤ (handleMouseMove s clientX).dragProgress ∧
    (handleMouseMove s clientX).dragProgress ≤ 1 := by
  intro s x h
  have hp : (handleMouseMove s x).dragProgress =
      max (-1) (min 1 ((x - s.dragStartX) / 200)) := by
    simp [handleMouseMove, h]
  refine ⟨hp, ?_, ?_⟩
  · rw [hp]; exact le_max_left _ _
  · rw [hp]; exact max_le (by norm_num) (min_le_left _ _)

/-- Concrete instance of `c6_drag_progress_clamped` at a move to
coordinate 100 from start 0. -/
theorem c6_witness :
    (handleMouseMove c6State 100).dragProgress =
      max (-1) (min 1 ((100 - c6State.dragStartX) / 200)) ∧
    -1 ≤ (handleMouseMove c6State 100).dragProgress ∧
    (handleMouseMove c6State 100).dragProgress ≤ 1 :=
  c6_drag_progress_clamped c6State 100 rfl

/-- Claim C5: on release of an active drag with
`delta = dragCurrentX - dragStartX`, a magnitude of at most 50 units
triggers no navigation (timers and direction unchanged) and resets the
progress to 0; a magnitude above 50 commits a navigation to the
previous page when positive (drag right) and the current page is above
1, and to the next page when negative (drag left) and the current page
is below the total. -/
theorem c5_gesture_release : ∀ s : ViewerState, s.isDragging = true →
    1 ≤ s.currentPage → s.currentPage ≤ s.totalPages →
    (|s.dragCurrentX - s.dragStartX| ≤ DRAG_THRESHOLD →
      (handleMouseUp s).pendingTimers = s.pendingTimers ∧
      (handleMouseUp s).flipDirection = s.flipDirection ∧
      (handleMouseUp s).dragProgress = 0) ∧
    (DRAG_THRESHOLD < |s.dragCurrentX - s.dragStartX| →
      0 < s.dragCurrentX - s.dragStartX → 1 < s.currentPage →
      (handleMouseUp s).pendingTimers = s.pendingTimers ++ [s.currentPage - 1] ∧
      (handleMouseUp s).flipDirection = some FlipDir.right ∧
      (handleMouseUp s).dragProgress = 0) ∧
    (DRAG_THRESHOLD < |s.dragCurrentX - s.dragStartX| →
      s.dragCurrentX - s.dragStartX < 0 → s.currentPage < s.totalPages →
      (handleMouseUp s).pendingTimers = s.pendingTimers ++ [s.currentPage + 1] ∧
      (handleMouseUp s).flipDirection = some FlipDir.left ∧
      (handleMouseUp s).dragProgress = 0) := by
  intro s hd h1 hT
  refine ⟨?_, ?_, ?_⟩
  · intro hle
    have hnot : ¬ (DRAG_THRESHOLD < |s.dragCurrentX - s.dragStartX|) := not_lt.mpr hle
    simp [handleMouseUp, hd, hnot]
  · intro hgt hpos hc
    have hacc := goToPage_accept s (s.currentPage - 1) FlipDir.right
      (by omega) (by omega) (by omega)
    simp [handleMouseUp, hd, hgt, hpos, hc, hacc]
  · intro hgt hneg hc
    have hnp : ¬ (0 < s.dragCurrentX - s.dragStartX) := not_lt.mpr hneg.le
    have hacc := goToPage_accept s (s.currentPage + 1) FlipDir.left
      (by omega) (by omega) (by omega)
    simp [handleMouseUp, hd, hgt, hnp, hneg, hc, hacc]

/-- Concrete instance of `c5_gesture_release`: a release 80 units left
of the press on page 5 of 10 commits a navigation to page 6. -/
theorem c5_witness :
    (handleMouseUp c5State).pendingTimers =
      c5State.pendingTimers ++ [c5State.currentPage + 1] ∧
    (handleMouseUp c5State).flipDirection = some FlipDir.left ∧
    (handleMouseUp c5State).dragProgress = 0 :=
  (c5_gesture_release c5State rfl (by norm_num [c5State]) (by norm_num [c5State])).2.2
    (by norm_num [c5State, DRAG_THRESHOLD])
    (by norm_num [c5State])
    (by norm_num [c5State])

/-- Membership in the preload result map: a page maps to a canvas
exactly when it was scheduled and its render succeeded with that
canvas. -/
theorem preloadPages_mem (render : Nat → Option String) (p T r j : Nat) (c : String) :
    (j, c) ∈ preloadPages render p T r ↔
      j ∈ preloadSchedule p T r ∧ render j = some c := by
  rw [preloadPages, List.mem_filterMap]
  constructor
  · rintro ⟨b, hb, hfb⟩
    cases hr : render b with
    | none => rw [hr] at hfb; simp at hfb
    | some canvas =>
      rw [hr] at hfb
      simp only [Option.map_some', Option.some.injEq, Prod.mk.injEq] at hfb
      obtain ⟨hbj, hcc⟩ := hfb
      subst hbj; subst hcc
      exact ⟨hb, hr⟩
  · rintro ⟨hj, hr⟩
    exact ⟨j, hj, by rw [hr]; rfl⟩

/-- Claim C8: a render failure for a page in the preload window leaves
that page absent from the resulting cache map and does not abort the
sibling render tasks: every other scheduled page whose render succeeds
is still present with its rendered image. -/
theorem c8_preload_failure_isolation : ∀ (render : Nat → Option String) (p T r i : Nat),
    i ∈ preloadSchedule p T r → render i = none →
    (∀ c, (i, c) ∉ preloadPages render p T r) ∧
    (∀ j c, j ∈ preloadSchedule p T r → render j = some c →
      (j, c) ∈ preloadPages render p T r) := by
  intro render p T r i _ hfail
  constructor
  · intro c hc
    obtain ⟨-, hr⟩ := (preloadPages_mem render p T r i c).mp hc
    rw [hfail] at hr
    cases hr
  · intro j c hj hr
    exact (preloadPages_mem render p T r j c).mpr ⟨hj, hr⟩

/-- Concrete instance of `c8_preload_failure_isolation`: preloading
around page 1 of 3 with radius 2 where page 2 fails to render leaves
page 2 absent while page 3 is still cached. -/
theorem c8_witness :
    (2, "img") ∉ preloadPages (fun n => if n = 2 then none else some "img") 1 3 2 ∧
    (3, "img") ∈ preloadPages (fun n => if n = 2 then none else some "img") 1 3 2 :=
  ⟨(c8_preload_failure_isolation (fun n => if n = 2 then none else some "img") 1 3 2 2
      (by decide) rfl).1 "img",
   (c8_preload_failure_isolation (fun n => if n = 2 then none else some "img") 1 3 2 2
      (by decide) rfl).2 3 "img" (by decide) rfl⟩

/-- Claim C10: the upload component invokes `onUpload` exactly when the
file has MIME type `application/pdf` or a name that lower-cases to a
`.pdf` suffix, and its size is at most `100 * 1024 * 1024` bytes; every
other file yields an error message instead. -/
theorem c10_upload_validation : ∀ f : FileInfo,
    (handleFile f = UploadOutcome.uploaded ↔
      ((f.fileType = "application/pdf" ∨ f.name.toLower.endsWith ".pdf" = true) ∧
        f.size ≤ 100 * 1024 * 1024)) ∧
    (handleFile f = UploadOutcome.uploaded ∨
      ∃ m, handleFile f = UploadOutcome.error m) := by
  intro f
  by_cases h1 : f.fileType = "application/pdf" <;>
    by_cases h2 : f.name.toLower.endsWith ".pdf" = true <;>
      by_cases h3 : 100 * 1024 * 1024 < f.size <;>
        simp [handleFile, h1, h2, h3] <;> omega

/-- Claim C9: every run of the `POST /upload` handler returns either a
success body holding exactly the fields `pdfUrl`, `viewerUrl`, `title`
and `path`, or an error body with status 400 or 500; missing
configuration yields 500, a missing file 400, a non-PDF content type
400, a remote hosting failure 500, and a configured PDF upload whose
GitHub call succeeds yields the success body. -/
theorem c9_upload_relay_responses : ∀ (env : UploadEnv) (req : UploadRequest)
    (ts : String) (enc : String → String) (ok : Bool) (eb : String),
    ((∃ st e d, handleUpload env req ts enc ok eb = .failure st e d ∧
        (st = 400 ∨ st = 500)) ∨
     (∃ p v t pa, handleUpload env req ts enc ok eb = .success p v t pa)) ∧
    ((env.githubOwner = "" ∨ env.githubRepo = "" ∨ env.githubToken = "") →
      ∃ e d, handleUpload env req ts enc ok eb = .failure 500 e d) ∧
    (env.githubOwner ≠ "" → env.githubRepo ≠ "" → env.githubToken ≠ "" →
      req.file = none →
      handleUpload env req ts enc ok eb = .failure 400 "No file uploaded" none) ∧
    (∀ f, env.githubOwner ≠ "" → env.githubRepo ≠ "" → env.githubToken ≠ "" →
      req.file = some f → f.mimetype ≠ "application/pdf" →
      handleUpload env req ts enc ok eb =
        .failure 400 "Only PDF files are allowed" none) ∧
    (∀ f, env.githubOwner ≠ "" → env.githubRepo ≠ "" → env.githubToken ≠ "" →
      req.file = some f → f.mimetype = "application/pdf" → ok = false →
      handleUpload env req ts enc ok eb =
        .failure 500 "Failed to upload to GitHub" (some eb)) ∧
    (∀ f, env.githubOwner ≠ "" → env.githubRepo ≠ "" → env.githubToken ≠ "" →
      req.file = some f → f.mimetype = "application/pdf" → ok = true →
      ∃ p v t pa, handleUpload env req ts enc ok eb = .success p v t pa) := by
  intro env req ts enc ok eb
  refine ⟨?_, ?_, ?_, ?_, ?_, ?_⟩
  · unfold handleUpload
    split
    · exact Or.inl ⟨500, _, _, rfl, Or.inr rfl⟩
    · split
      · exact Or.inl ⟨400, _, _, rfl, Or.inl rfl⟩
      · split
        · exact Or.inl ⟨400, _, _, rfl, Or.inl rfl⟩
        · split
          · exact Or.inl ⟨500, _, _, rfl, Or.inr rfl⟩
          · exact Or.inr ⟨_, _, _, _, rfl⟩
  · intro h
    unfold handleUpload
    rw [if_pos h]
    exact ⟨_, _, rfl⟩
  · intro h1 h2 h3 hf
    simp [handleUpload, h1, h2, h3, hf]
  · intro f h1 h2 h3 hf hm
    simp [handleUpload, h1, h2, h3, hf, hm]
  · intro f h1 h2 h3 hf hm hok
    simp [handleUpload, h1, h2, h3, hf, hm, hok]
  · intro f h1 h2 h3 hf hm hok
    simp [handleUpload, h1, h2, h3, hf, hm, hok]

/-- Concrete instance of `c9_upload_relay_responses`: a configured
relay receiving a PDF whose GitHub call succeeds returns the success
body, and one receiving no file returns the 400 error body. -/
theorem c9_witness :
    (∃ p v t pa, handleUpload ⟨"o", "r", "t", "", "f/"⟩
        ⟨some ⟨"a.pdf", "application/pdf", "bin"⟩, none⟩ "T" id true "eb" =
        UploadResponse.success p v t pa) ∧
    handleUpload ⟨"o", "r", "t", "", "f/"⟩ ⟨none, none⟩ "T" id true "eb" =
      UploadResponse.failure 400 "No file uploaded" none :=
  ⟨(c9_upload_relay_responses ⟨"o", "r", "t", "", "f/"⟩
      ⟨some ⟨"a.pdf", "application/pdf", "bin"⟩, none⟩ "T" id true "eb").2.2.2.2.2
      ⟨"a.pdf", "application/pdf", "bin"⟩ (by decide) (by decide) (by decide) rfl rfl rfl,
   (c9_upload_relay_responses ⟨"o", "r", "t", "", "f/"⟩
      ⟨none, none⟩ "T" id true "eb").2.2.1 (by decide) (by decide) (by decide) rfl⟩
